import Mathlib

/-
Verification of the deep_research configuration scripts.

The definitions below are a shallow embedding of the repository's four
Python files:

  * deep_research/agent.py                  (namespace Agent)
  * deep_research/agent_with_memory.py      (namespace AgentWithMemory)
  * deep_research/demo_memory.py            (namespace DemoMemory)
  * deep_research/langgraph_client_example.py (namespace ClientExample)

Python strings are modelled by Lean String, acting on the character list
String.data.  The prompt template constants imported from
research_agent.prompts, and the two tool functions imported from
research_agent.tools, are not part of the four files; they are modelled
from the spec as parameters (see the doc comments on Seg and Tool).
-/

set_option maxRecDepth 100000

/-! ### Python string primitives, modelled at character level -/

/-- Model of Python `str.lower` on one character: ASCII uppercase letters
are shifted to lowercase, everything else is unchanged. -/
def lowerChar (c : Char) : Char :=
  if 65 ≤ c.toNat ∧ c.toNat ≤ 90 then Char.ofNat (c.toNat + 32) else c

/-- Model of Python `str.lower` (`.lower()` in the source). -/
def pyLower (s : String) : String := String.mk (s.data.map lowerChar)

/-- Whitespace test used by the model of Python `str.strip`. -/
def isPySpace (c : Char) : Bool := c = ' ' || c = '\t' || c = '\n' || c = '\r'

/-- Model of Python `str.strip` (`.strip()` in the source): drop leading
and trailing whitespace. -/
def pyStrip (s : String) : String :=
  String.mk (((s.data.dropWhile isPySpace).reverse.dropWhile isPySpace).reverse)

/-- Model of Python string repetition `s * n` (used as `"=" * 80`). -/
def pyRepeat (s : String) (n : Nat) : String := String.join (List.replicate n s)

/-! ### Python `str.format` on template constants -/

/-- Modelled from the spec: the prompt template constants
RESEARCH_WORKFLOW_INSTRUCTIONS, SUBAGENT_DELEGATION_INSTRUCTIONS and
RESEARCHER_INSTRUCTIONS are imported from research_agent.prompts, which is
not among the repository files; the spec describes them only as "static
template text" that is string-formatted "with two numeric limits and a
date string".  A template is therefore modelled in parsed form, as a
sequence of literal segments and named placeholders, exactly the shape
Python `str.format` substitutes into. -/
inductive Seg where
  | lit (s : String)
  | hole (name : String)
deriving DecidableEq

/-- Semantics of Python `str.format` with keyword arguments on a parsed
template: literal segments are copied, each placeholder is replaced by the
argument bound to its name, and a missing name fails (Python raises
KeyError). -/
def formatSegs (args : List (String × String)) : List Seg → Option String
  | [] => some ""
  | Seg.lit s :: rest => (formatSegs args rest).map (fun r => s ++ r)
  | Seg.hole n :: rest =>
    match args.lookup n, formatSegs args rest with
    | some v, some r => some (v ++ r)
    | _, _ => none

/-- `tpl.format(args)` for a parsed template. -/
def formatTpl (tpl : List Seg) (args : List (String × String)) : Option String :=
  formatSegs args tpl

/-- The string `sub` occurs as a contiguous substring of `s`. -/
def ContainsStr (s sub : String) : Prop := ∃ a b, s = a ++ sub ++ b

/-! ### Data model of the configuration the scripts build -/

/-- Modelled from the spec: the two tool functions `tavily_search` and
`think_tool` are imported from research_agent.tools, which is not among
the repository files; the spec describes them as "a web-search call and a
think scratchpad call".  They are modelled as atomic tags, since the
claims only concern which tools are wired where. -/
inductive Tool where
  | tavily_search
  | think_tool
deriving DecidableEq

/-- The three chat-model backends the selector chooses among. -/
inductive Backend where
  | ollama
  | anthropic
  | openrouter
deriving DecidableEq

/-- The constructor call producing the chat model, with the configuration
arguments each branch of the source passes (temperature is the literal
`0.0` in every branch, kept as its source text). -/
inductive ChatModel where
  | chatOllama (model base_url temperature : String)
  | initAnthropic (model temperature : String)
  | initOpenRouter (model model_provider temperature : String)
      (api_key : Option String) (base_url referer title : String)
deriving DecidableEq

/-- Which backend a constructed chat model came from. -/
def backendOf : ChatModel → Backend
  | ChatModel.chatOllama _ _ _ => Backend.ollama
  | ChatModel.initAnthropic _ _ => Backend.anthropic
  | ChatModel.initOpenRouter _ _ _ _ _ _ _ => Backend.openrouter

/-- The process environment, as a name-value list.  `os.getenv(k, d)` is
`getenv env k d`, `os.getenv(k)` is `env.lookup k`. -/
abbrev Env := List (String × String)

/-- Model of `os.getenv(key, default)`. -/
def getenv (env : Env) (key default : String) : String :=
  (env.lookup key).getD default

/-- The research sub-agent record: the dict literal with its four keys
(`name`, `description`, `system_prompt` and `tools`). -/
structure SubAgent where
  name : String
  description : String
  system_prompt : String
  tools : List Tool
deriving DecidableEq

/-- The local filesystem seen by `os.path.exists` and `PersistentDict.load`:
a map from path to the pickled dictionary contents stored there. -/
structure FS where
  files : List (String × List (String × String))
deriving DecidableEq

/-- Model of `os.path.exists`. -/
def FS.pathExists (fs : FS) (p : String) : Bool := (fs.files.lookup p).isSome

/-- Model of `langgraph.checkpoint.memory.PersistentDict`: a dictionary
remembering the filename it was constructed on. -/
structure PDict where
  filename : String
  data : List (String × String)
deriving DecidableEq

/-- `PersistentDict(filename=f)`: a fresh, empty persistent dictionary. -/
def PDict.init (f : String) : PDict := ⟨f, []⟩

/-- `d.load()`: replace the in-memory contents with what the file holds
(the source only calls it after checking the file exists). -/
def PDict.load (d : PDict) (fs : FS) : PDict :=
  ⟨d.filename, (fs.files.lookup d.filename).getD d.data⟩

/-- Model of `langgraph.checkpoint.memory.InMemorySaver`, reduced to the
storage dictionary that its `factory` argument produces. -/
structure InMemorySaver where
  storage : PDict
deriving DecidableEq

/-- The `create_deep_agent(...)` call, reduced to the record of arguments
the scripts pass into the framework constructor. -/
structure DeepAgentConfig where
  model : ChatModel
  tools : List Tool
  system_prompt : String
  subagents : List SubAgent
  checkpointer : Option InMemorySaver
deriving DecidableEq

/-- Replace the checkpointer argument of a configuration. -/
def withCheckpointer (c : DeepAgentConfig) (k : InMemorySaver) : DeepAgentConfig :=
  ⟨c.model, c.tools, c.system_prompt, c.subagents, some k⟩

namespace Agent

/-- `max_concurrent_research_units = 3` (agent.py line 61). -/
def max_concurrent_research_units : Nat := 3

/-- `max_researcher_iterations = 3` (agent.py line 62). -/
def max_researcher_iterations : Nat := 3

/-- The keyword arguments of the `.format` call on
SUBAGENT_DELEGATION_INSTRUCTIONS (agent.py lines 73-76). -/
def delegationArgs : List (String × String) :=
  [("max_concurrent_research_units", toString max_concurrent_research_units),
   ("max_researcher_iterations", toString max_researcher_iterations)]

/-- The orchestrator prompt assembly (agent.py lines 68-77), parameterised
by the two template constants that are not in the repository. -/
def INSTRUCTIONS (workflow : String) (subagentTpl : List Seg) : Option String :=
  (formatTpl subagentTpl delegationArgs).map
    (fun sub => workflow ++ "\n\n" ++ pyRepeat "=" 80 ++ "\n\n" ++ sub)

/-- The `description` value of the research sub-agent dict (agent.py line 82). -/
def researcherDescription : String :=
  "Delegate research tasks to this researcher sub-agent. Use this for conducting web searches and gathering information. Only give this researcher one specific topic at a time."

/-- The research sub-agent dict literal (agent.py lines 80-85),
parameterised by the researcher template and the current date. -/
def research_sub_agent (researcherTpl : List Seg) (current_date : String) :
    Option SubAgent :=
  (formatTpl researcherTpl [("date", current_date)]).map
    (fun sp => ⟨"researcher", researcherDescription, sp,
      [Tool.tavily_search, Tool.think_tool]⟩)

/-- The backend chosen from the MODEL_PROVIDER environment value
(agent.py lines 91, 96, 108, 118):
`os.getenv("MODEL_PROVIDER", "openrouter").lower()` compared against
"ollama" and "anthropic", with everything else defaulting to OpenRouter. -/
def selectBackend (envModelProvider : Option String) : Backend :=
  let mp := pyLower (envModelProvider.getD "openrouter")
  if mp = "ollama" then Backend.ollama
  else if mp = "anthropic" then Backend.anthropic
  else Backend.openrouter

/-- The chat-model constructor call the selected branch performs
(agent.py lines 96-135). -/
def buildModel (env : Env) : ChatModel :=
  match selectBackend (env.lookup "MODEL_PROVIDER") with
  | Backend.ollama =>
    ChatModel.chatOllama (getenv env "OLLAMA_MODEL" "llama3.2")
      (getenv env "OLLAMA_BASE_URL" "http://localhost:11434") "0.0"
  | Backend.anthropic =>
    ChatModel.initAnthropic
      ("anthropic:" ++ getenv env "ANTHROPIC_MODEL" "claude-sonnet-4-5-20250929")
      "0.0"
  | Backend.openrouter =>
    ChatModel.initOpenRouter (getenv env "OPENROUTER_MODEL" "openai/gpt-oss-120b:free")
      "openai" "0.0" (env.lookup "OPENROUTER_API_KEY") "https://openrouter.ai/api/v1"
      "https://github.com/alanxu/deepagents-quickstarts" "Deep Research Agent"

/-- The `create_deep_agent` call (agent.py lines 140-145): the model, an
empty tool list, the assembled prompt, the single sub-agent, and no
checkpointer.  None when a `.format` call fails. -/
def agent (env : Env) (workflow : String) (subagentTpl researcherTpl : List Seg)
    (current_date : String) : Option DeepAgentConfig :=
  match INSTRUCTIONS workflow subagentTpl,
      research_sub_agent researcherTpl current_date with
  | some ins, some sa => some ⟨buildModel env, [], ins, [sa], none⟩
  | _, _ => none

end Agent

namespace AgentWithMemory

/-- `max_concurrent_research_units = 3` (agent_with_memory.py line 75). -/
def max_concurrent_research_units : Nat := 3

/-- `max_researcher_iterations = 3` (agent_with_memory.py line 76). -/
def max_researcher_iterations : Nat := 3

/-- The keyword arguments of the `.format` call on
SUBAGENT_DELEGATION_INSTRUCTIONS (agent_with_memory.py lines 87-90). -/
def delegationArgs : List (String × String) :=
  [("max_concurrent_research_units", toString max_concurrent_research_units),
   ("max_researcher_iterations", toString max_researcher_iterations)]

/-- The orchestrator prompt assembly (agent_with_memory.py lines 82-91). -/
def INSTRUCTIONS (workflow : String) (subagentTpl : List Seg) : Option String :=
  (formatTpl subagentTpl delegationArgs).map
    (fun sub => workflow ++ "\n\n" ++ pyRepeat "=" 80 ++ "\n\n" ++ sub)

/-- The `description` value of the research sub-agent dict
(agent_with_memory.py line 96). -/
def researcherDescription : String :=
  "Delegate research tasks to this researcher sub-agent. Use this for conducting web searches and gathering information. Only give this researcher one specific topic at a time."

/-- The research sub-agent dict literal (agent_with_memory.py lines 94-99). -/
def research_sub_agent (researcherTpl : List Seg) (current_date : String) :
    Option SubAgent :=
  (formatTpl researcherTpl [("date", current_date)]).map
    (fun sp => ⟨"researcher", researcherDescription, sp,
      [Tool.tavily_search, Tool.think_tool]⟩)

/-- The backend chosen from the MODEL_PROVIDER environment value
(agent_with_memory.py lines 102, 104, 113, 120). -/
def selectBackend (envModelProvider : Option String) : Backend :=
  let mp := pyLower (envModelProvider.getD "openrouter")
  if mp = "ollama" then Backend.ollama
  else if mp = "anthropic" then Backend.anthropic
  else Backend.openrouter

/-- The chat-model constructor call the selected branch performs
(agent_with_memory.py lines 104-134). -/
def buildModel (env : Env) : ChatModel :=
  match selectBackend (env.lookup "MODEL_PROVIDER") with
  | Backend.ollama =>
    ChatModel.chatOllama (getenv env "OLLAMA_MODEL" "llama3.2")
      (getenv env "OLLAMA_BASE_URL" "http://localhost:11434") "0.0"
  | Backend.anthropic =>
    ChatModel.initAnthropic
      ("anthropic:" ++ getenv env "ANTHROPIC_MODEL" "claude-sonnet-4-5-20250929")
      "0.0"
  | Backend.openrouter =>
    ChatModel.initOpenRouter (getenv env "OPENROUTER_MODEL" "openai/gpt-oss-120b:free")
      "openai" "0.0" (env.lookup "OPENROUTER_API_KEY") "https://openrouter.ai/api/v1"
      "https://github.com/alanxu/deepagents-quickstarts" "Deep Research Agent"

/-- The factory closure passed to `InMemorySaver`
(agent_with_memory.py line 66): `storage if storage else
PersistentDict(filename=db_path)` — the loaded dictionary when it is
truthy (non-empty), otherwise a fresh `PersistentDict` on the same path. -/
def checkpointerFactory (storage : PDict) (db_path : String) : PDict :=
  if storage.data.isEmpty then PDict.init db_path else storage

/-- `get_persistent_checkpointer` (agent_with_memory.py lines 42-67):
construct PersistentDicts on `db_path`, `db_path + ".writes"` and
`db_path + ".blobs"`, load each whose file exists, and return an
`InMemorySaver` whose factory chooses between the loaded storage and a
fresh dictionary. -/
def get_persistent_checkpointer (fs : FS) (db_path : String) : InMemorySaver :=
  let storage := PDict.init db_path
  let writes := PDict.init (db_path ++ ".writes")
  let blobs := PDict.init (db_path ++ ".blobs")
  let storage := if fs.pathExists db_path then storage.load fs else storage
  let writes := if fs.pathExists (db_path ++ ".writes") then writes.load fs else writes
  let blobs := if fs.pathExists (db_path ++ ".blobs") then blobs.load fs else blobs
  ⟨checkpointerFactory storage db_path⟩

/-- The `create_deep_agent` call (agent_with_memory.py lines 143-151):
as in agent.py, plus `checkpointer=get_persistent_checkpointer("./research_checkpoints.db")`. -/
def agent (env : Env) (workflow : String) (subagentTpl researcherTpl : List Seg)
    (current_date : String) (fs : FS) : Option DeepAgentConfig :=
  match INSTRUCTIONS workflow subagentTpl,
      research_sub_agent researcherTpl current_date with
  | some ins, some sa =>
    some ⟨buildModel env, [], ins, [sa],
      some (get_persistent_checkpointer fs "./research_checkpoints.db")⟩
  | _, _ => none

end AgentWithMemory

/-- Observable actions of the interactive input loops in demo_memory.py
and langgraph_client_example.py. -/
inductive DAction where
  | goodbye
  | historyShown
  | stateShown
  | newConv (q : String)
  | resumeConv (q : String)
  | streamQuery (q : String)
  | errPrint (msg : String)
deriving DecidableEq

namespace DemoMemory

/-- The `interactive_session` loop of demo_memory.py (lines 114-140),
run over a list of console inputs paired with the outcome the framework
call for that input would have (`Except.error e` models the call raising
an exception with message `e`).  Commands `quit`, `history` and `state`
are handled first; otherwise the query is sent — `run_new_conversation`
while `first_query` is still true, `resume_conversation` after — and an
exception is caught and printed, leaving `first_query` unchanged because
the assignment `first_query = False` sits after the call that raised. -/
def memLoop : Bool → List (String × Except String Unit) → List DAction
  | _, [] => []
  | firstQuery, (rawQuery, res) :: rest =>
    let q := pyStrip rawQuery
    if q = "" then memLoop firstQuery rest
    else if pyLower q = "quit" then [DAction.goodbye]
    else if pyLower q = "history" then DAction.historyShown :: memLoop firstQuery rest
    else if pyLower q = "state" then DAction.stateShown :: memLoop firstQuery rest
    else
      match firstQuery, res with
      | true, Except.ok _ => DAction.newConv q :: memLoop false rest
      | true, Except.error e =>
        DAction.newConv q :: DAction.errPrint e :: memLoop true rest
      | false, Except.ok _ => DAction.resumeConv q :: memLoop false rest
      | false, Except.error e =>
        DAction.resumeConv q :: DAction.errPrint e :: memLoop false rest

end DemoMemory

/-- Observable actions of `main` in langgraph_client_example.py. -/
inductive CAction where
  | printError (msg : String)
  | exitProgram (code : Nat)
  | menuShown
  | runExample (n : Nat)
  | quitProgram
  | invalidChoice
  | footer
deriving DecidableEq

namespace ClientExample

/-- The `example_interactive` loop of langgraph_client_example.py
(lines 221-265): commands `quit`, `state`, `history` first, otherwise the
query is streamed to the server and an exception from the stream call is
caught and printed before the loop continues. -/
def clientLoop : List (String × Except String Unit) → List DAction
  | [] => []
  | (rawQuery, res) :: rest =>
    let q := pyStrip rawQuery
    if q = "" then clientLoop rest
    else if pyLower q = "quit" then [DAction.goodbye]
    else if pyLower q = "state" then DAction.stateShown :: clientLoop rest
    else if pyLower q = "history" then DAction.historyShown :: clientLoop rest
    else
      match res with
      | Except.ok _ => DAction.streamQuery q :: clientLoop rest
      | Except.error e =>
        DAction.streamQuery q :: DAction.errPrint e :: clientLoop rest

/-- The menu dispatch of `main` (lines 297-322): choices "1".."6" run one
example, "7" runs examples 1-5, "q" (case-insensitive) quits, anything
else is rejected; the completion footer is printed after every example
run but not after quit or an invalid choice. -/
def dispatchChoice (choice : String) : List CAction :=
  let c := pyStrip choice
  if c = "1" then [CAction.runExample 1, CAction.footer]
  else if c = "2" then [CAction.runExample 2, CAction.footer]
  else if c = "3" then [CAction.runExample 3, CAction.footer]
  else if c = "4" then [CAction.runExample 4, CAction.footer]
  else if c = "5" then [CAction.runExample 5, CAction.footer]
  else if c = "6" then [CAction.runExample 6, CAction.footer]
  else if c = "7" then
    [CAction.runExample 1, CAction.runExample 2, CAction.runExample 3,
     CAction.runExample 4, CAction.runExample 5, CAction.footer]
  else if pyLower c = "q" then [CAction.quitProgram]
  else [CAction.invalidChoice]

/-- The `main` entry point (lines 268-328): the connectivity check first
tries `client.threads.list()`; on any exception it prints the error and
calls `sys.exit(1)`, otherwise the menu is shown and the chosen example
dispatched. -/
def clientMain (connectivity : Except String Unit) (choice : String) : List CAction :=
  match connectivity with
  | Except.error e => [CAction.printError e, CAction.exitProgram 1]
  | Except.ok _ => CAction.menuShown :: dispatchChoice choice

end ClientExample

/-! ### Helper lemmas -/

theorem containsStr_append_left (x s sub : String) (h : ContainsStr s sub) :
    ContainsStr (x ++ s) sub := by
  obtain ⟨a, b, rfl⟩ := h
  exact ⟨x ++ a, b, by rw [String.append_assoc, String.append_assoc,
    String.append_assoc]⟩

theorem formatSegs_contains (args : List (String × String)) (n v : String) :
    ∀ (tpl : List Seg) (s : String), Seg.hole n ∈ tpl → args.lookup n = some v →
    formatSegs args tpl = some s → ContainsStr s v := by
  intro tpl
  induction tpl with
  | nil => intro s hmem _ _; simp at hmem
  | cons seg rest ih =>
    intro s hmem hlook hfmt
    match seg with
    | Seg.lit t =>
      simp only [formatSegs, Option.map_eq_some'] at hfmt
      obtain ⟨r, hr, rfl⟩ := hfmt
      have hmem' : Seg.hole n ∈ rest := by simpa using hmem
      exact containsStr_append_left t r v (ih r hmem' hlook hr)
    | Seg.hole m =>
      simp only [formatSegs] at hfmt
      match hl : args.lookup m, hf : formatSegs args rest with
      | some w, some r =>
        rw [hl, hf] at hfmt
        cases hfmt
        rcases List.mem_cons.mp hmem with hhead | htail
        · obtain rfl : m = n := by cases hhead; rfl
          rw [hlook] at hl
          cases hl
          exact ⟨"", r, by rw [String.empty_append]⟩
        · exact containsStr_append_left w r v (ih r htail hlook hf)
      | some _, none => rw [hl, hf] at hfmt; cases hfmt
      | none, _ => rw [hl] at hfmt; cases hfmt

theorem get_persistent_checkpointer_eq (fs : FS) (db_path : String) :
    AgentWithMemory.get_persistent_checkpointer fs db_path =
      ⟨⟨db_path, (fs.files.lookup db_path).getD []⟩⟩ := by
  unfold AgentWithMemory.get_persistent_checkpointer
  cases h : fs.files.lookup db_path with
  | none =>
    simp [FS.pathExists, h, AgentWithMemory.checkpointerFactory, PDict.init]
  | some contents =>
    cases contents with
    | nil =>
      simp [FS.pathExists, h, AgentWithMemory.checkpointerFactory,
        PDict.init, PDict.load]
    | cons p rest =>
      simp [FS.pathExists, h, AgentWithMemory.checkpointerFactory,
        PDict.init, PDict.load]

/-! ### Claim theorems -/

/-- C1 (counterexample): the environment value "OLLAMA" is neither the
string "ollama" nor "anthropic", yet it does not select the OpenRouter
branch — it selects ChatOllama, because the source lowercases the value
before comparing. -/
theorem model_selection_uppercase_counterexample :
    ("OLLAMA" : String) ≠ "ollama" ∧ ("OLLAMA" : String) ≠ "anthropic" ∧
    Agent.selectBackend (some "OLLAMA") ≠ Backend.openrouter ∧
    Agent.selectBackend (some "OLLAMA") = Backend.ollama := by
  refine ⟨by decide, by decide, by decide, by decide⟩

/-- C1 (amended): the model-selection code chooses exactly one of three
backends from the MODEL_PROVIDER value after lowercasing it: lowercased
"ollama" selects the ChatOllama constructor, lowercased "anthropic"
selects the Anthropic init_chat_model branch, and every other value
(including the variable being unset) selects the OpenRouter branch; the
constructed model comes from exactly the selected backend's constructor. -/
theorem model_selection_branches (v : Option String) (env : Env) :
    (Agent.selectBackend v = Backend.ollama ↔
      pyLower (v.getD "openrouter") = "ollama") ∧
    (Agent.selectBackend v = Backend.anthropic ↔
      pyLower (v.getD "openrouter") = "anthropic") ∧
    (Agent.selectBackend v = Backend.openrouter ↔
      (pyLower (v.getD "openrouter") ≠ "ollama" ∧
        pyLower (v.getD "openrouter") ≠ "anthropic")) ∧
    Agent.selectBackend none = Backend.openrouter ∧
    backendOf (Agent.buildModel env) =
      Agent.selectBackend (env.lookup "MODEL_PROVIDER") := by
  refine ⟨?_, ?_, ?_, by decide, ?_⟩
  · by_cases h1 : pyLower (v.getD "openrouter") = "ollama"
    · simp [Agent.selectBackend, h1]
    · by_cases h2 : pyLower (v.getD "openrouter") = "anthropic" <;>
        simp [Agent.selectBackend, h1, h2]
  · by_cases h1 : pyLower (v.getD "openrouter") = "ollama"
    · simp [Agent.selectBackend, h1]
    · by_cases h2 : pyLower (v.getD "openrouter") = "anthropic" <;>
        simp [Agent.selectBackend, h1, h2]
  · by_cases h1 : pyLower (v.getD "openrouter") = "ollama"
    · simp [Agent.selectBackend, h1]
    · by_cases h2 : pyLower (v.getD "openrouter") = "anthropic" <;>
        simp [Agent.selectBackend, h1, h2]
  · cases h : Agent.selectBackend (env.lookup "MODEL_PROVIDER") <;>
      simp [Agent.buildModel, h, backendOf]

/-- C8: backend selection is case-insensitive — two MODEL_PROVIDER values
with the same lowercasing select the same backend — and every value whose
lowercasing is neither "ollama" nor "anthropic" falls through to the
OpenRouter default branch (the selector is a total function with no error
case). -/
theorem model_selection_case_insensitive :
    (∀ s t : String, pyLower s = pyLower t →
      Agent.selectBackend (some s) = Agent.selectBackend (some t)) ∧
    (∀ s : String, pyLower s ≠ "ollama" → pyLower s ≠ "anthropic" →
      Agent.selectBackend (some s) = Backend.openrouter) := by
  constructor
  · intro s t h
    simp only [Agent.selectBackend, Option.getD_some, h]
  · intro s h1 h2
    simp only [Agent.selectBackend, Option.getD_some, if_neg h1, if_neg h2]

/-- C8 (witness): "OLLAMA" selects the same backend as "ollama", and the
unrecognized value "Gemini" falls through to OpenRouter. -/
theorem model_selection_case_insensitive_witness :
    Agent.selectBackend (some "OLLAMA") = Agent.selectBackend (some "ollama") ∧
    Agent.selectBackend (some "Gemini") = Backend.openrouter :=
  ⟨model_selection_case_insensitive.1 "OLLAMA" "ollama" (by decide),
   model_selection_case_insensitive.2 "Gemini" (by decide) (by decide)⟩

/-- C2: whenever the orchestrator prompt assembly succeeds, INSTRUCTIONS
is the workflow instructions, two newlines, a separator of exactly 80 '='
characters, two newlines, and the delegation instructions with both
numeric limits substituted as "3"; the formatted string contains those
substituted values wherever the template held the corresponding
placeholder, and the researcher (sub-agent) prompt contains the current
date string wherever its template held the date placeholder. -/
theorem instructions_assembly (workflow : String)
    (subagentTpl researcherTpl : List Seg) (current_date ins rp : String)
    (hins : Agent.INSTRUCTIONS workflow subagentTpl = some ins)
    (hrp : formatTpl researcherTpl [("date", current_date)] = some rp) :
    (∃ sub, formatTpl subagentTpl Agent.delegationArgs = some sub ∧
      ins = workflow ++ "\n\n" ++ pyRepeat "=" 80 ++ "\n\n" ++ sub) ∧
    pyRepeat "=" 80 = String.mk (List.replicate 80 '=') ∧
    (pyRepeat "=" 80).length = 80 ∧
    toString Agent.max_concurrent_research_units = "3" ∧
    toString Agent.max_researcher_iterations = "3" ∧
    (Seg.hole "max_concurrent_research_units" ∈ subagentTpl →
      ContainsStr ins "3") ∧
    (Seg.hole "max_researcher_iterations" ∈ subagentTpl →
      ContainsStr ins "3") ∧
    (Seg.hole "date" ∈ researcherTpl → ContainsStr rp current_date) := by
  simp only [Agent.INSTRUCTIONS, Option.map_eq_some'] at hins
  obtain ⟨sub, hsub, rfl⟩ := hins
  refine ⟨⟨sub, hsub, rfl⟩, by decide, by decide, by decide, by decide,
    ?_, ?_, ?_⟩
  · intro hmem
    exact containsStr_append_left _ sub "3"
      (formatSegs_contains Agent.delegationArgs "max_concurrent_research_units"
        "3" subagentTpl sub hmem (by decide) hsub)
  · intro hmem
    exact containsStr_append_left _ sub "3"
      (formatSegs_contains Agent.delegationArgs "max_researcher_iterations"
        "3" subagentTpl sub hmem (by decide) hsub)
  · intro hmem
    exact formatSegs_contains [("date", current_date)] "date" current_date
      researcherTpl rp hmem (by simp [List.lookup]) hrp

/-- C2 (witness): the assembly evaluated on a small concrete delegation
template and researcher template. -/
theorem instructions_assembly_witness :
    Agent.INSTRUCTIONS "W"
      [Seg.hole "max_concurrent_research_units", Seg.lit " and ",
       Seg.hole "max_researcher_iterations"] =
      some ("W\n\n" ++ pyRepeat "=" 80 ++ "\n\n" ++ "3 and 3") ∧
    ContainsStr ("W\n\n" ++ pyRepeat "=" 80 ++ "\n\n" ++ "3 and 3") "3" ∧
    ContainsStr "Today is 2026-10-12" "2026-10-12" := by
  refine ⟨by decide, ?_, ?_⟩
  · exact (instructions_assembly "W"
      [Seg.hole "max_concurrent_research_units", Seg.lit " and ",
       Seg.hole "max_researcher_iterations"]
      [Seg.lit "Today is ", Seg.hole "date"] "2026-10-12"
      ("W\n\n" ++ pyRepeat "=" 80 ++ "\n\n" ++ "3 and 3")
      "Today is 2026-10-12" (by decide) (by decide)).2.2.2.2.2.1 (by decide)
  · exact (instructions_assembly "W"
      [Seg.hole "max_concurrent_research_units", Seg.lit " and ",
       Seg.hole "max_researcher_iterations"]
      [Seg.lit "Today is ", Seg.hole "date"] "2026-10-12"
      ("W\n\n" ++ pyRepeat "=" 80 ++ "\n\n" ++ "3 and 3")
      "Today is 2026-10-12" (by decide) (by decide)).2.2.2.2.2.2.2 (by decide)

/-- C7: whenever the researcher prompt formats, the research sub-agent
record has name "researcher", the fixed description text, the researcher
instructions with the current date substituted as its system prompt, and
the tool list [tavily_search, think_tool] in that order (the SubAgent
structure has exactly these four fields). -/
theorem research_sub_agent_record (researcherTpl : List Seg)
    (current_date : String) (sa : SubAgent)
    (h : Agent.research_sub_agent researcherTpl current_date = some sa) :
    sa.name = "researcher" ∧
    sa.description = Agent.researcherDescription ∧
    formatTpl researcherTpl [("date", current_date)] = some sa.system_prompt ∧
    sa.tools = [Tool.tavily_search, Tool.think_tool] := by
  simp only [Agent.research_sub_agent, Option.map_eq_some'] at h
  obtain ⟨sp, hsp, rfl⟩ := h
  exact ⟨rfl, rfl, hsp, rfl⟩

/-- C7 (witness): the record built from the one-placeholder template on a
concrete date. -/
theorem research_sub_agent_record_witness :
    (⟨"researcher", Agent.researcherDescription, "2026-10-12",
      [Tool.tavily_search, Tool.think_tool]⟩ : SubAgent).name = "researcher" ∧
    (⟨"researcher", Agent.researcherDescription, "2026-10-12",
      [Tool.tavily_search, Tool.think_tool]⟩ : SubAgent).description =
      Agent.researcherDescription ∧
    formatTpl [Seg.hole "date"] [("date", "2026-10-12")] =
      some (⟨"researcher", Agent.researcherDescription, "2026-10-12",
        [Tool.tavily_search, Tool.think_tool]⟩ : SubAgent).system_prompt ∧
    (⟨"researcher", Agent.researcherDescription, "2026-10-12",
      [Tool.tavily_search, Tool.think_tool]⟩ : SubAgent).tools =
      [Tool.tavily_search, Tool.think_tool] :=
  research_sub_agent_record [Seg.hole "date"] "2026-10-12"
    ⟨"researcher", Agent.researcherDescription, "2026-10-12",
      [Tool.tavily_search, Tool.think_tool]⟩ (by decide)

/-- C3: the persistent-checkpointer setup returns an InMemorySaver whose
storage is the PersistentDict instantiated on the given file path, whose
contents are exactly what that file held when it existed and empty
otherwise (the conditional `storage.load()`); nothing else of the
filesystem flows into the returned value, as the right-hand side shows. -/
theorem persistent_checkpointer_storage (fs : FS) (db_path : String) :
    AgentWithMemory.get_persistent_checkpointer fs db_path =
      ⟨⟨db_path, (fs.files.lookup db_path).getD []⟩⟩ ∧
    (AgentWithMemory.get_persistent_checkpointer fs db_path).storage.filename =
      db_path :=
  ⟨get_persistent_checkpointer_eq fs db_path,
   by rw [get_persistent_checkpointer_eq fs db_path]⟩

/-- C9: the returned saver depends only on the main storage file — two
filesystems agreeing on the db_path entry (they may differ arbitrarily on
the ".writes" and ".blobs" files, which are instantiated and loaded but
never passed on) yield equal savers — and when the loaded storage
dictionary is empty the factory produces a fresh
`PersistentDict(filename=db_path)` instead of the loaded one. -/
theorem checkpointer_ignores_writes_blobs (fs1 fs2 : FS) (db_path : String)
    (st : PDict) (h : fs1.files.lookup db_path = fs2.files.lookup db_path)
    (hst : st.data = []) :
    AgentWithMemory.get_persistent_checkpointer fs1 db_path =
      AgentWithMemory.get_persistent_checkpointer fs2 db_path ∧
    AgentWithMemory.checkpointerFactory st db_path = PDict.init db_path := by
  constructor
  · rw [get_persistent_checkpointer_eq fs1 db_path,
      get_persistent_checkpointer_eq fs2 db_path, h]
  · simp [AgentWithMemory.checkpointerFactory, hst]

/-- C9 (witness): two filesystems sharing the "db" file but holding
different ".writes" and ".blobs" files give the same saver, and the
factory on an empty dictionary returns a fresh one. -/
theorem checkpointer_ignores_writes_blobs_witness :
    AgentWithMemory.get_persistent_checkpointer
        ⟨[("db", [("k", "v")]), ("db.writes", [("w", "1")])]⟩ "db" =
      AgentWithMemory.get_persistent_checkpointer
        ⟨[("db", [("k", "v")]), ("db.blobs", [("b", "2")])]⟩ "db" ∧
    AgentWithMemory.checkpointerFactory ⟨"db", []⟩ "db" = PDict.init "db" :=
  checkpointer_ignores_writes_blobs
    ⟨[("db", [("k", "v")]), ("db.writes", [("w", "1")])]⟩
    ⟨[("db", [("k", "v")]), ("db.blobs", [("b", "2")])]⟩ "db" ⟨"db", []⟩
    (by decide) (by decide)

/-- C6: whenever the two scripts' `create_deep_agent` calls are made,
each passes the selected model, the empty custom-tool list, the assembled
INSTRUCTIONS as the system prompt, and a subagents list containing
exactly the one research sub-agent record; agent.py passes no
checkpointer while agent_with_memory.py additionally passes the
persistent checkpointer. -/
theorem agent_factory_wiring (env : Env) (workflow : String)
    (subagentTpl researcherTpl : List Seg) (current_date : String) (fs : FS)
    (cfg cfgM : DeepAgentConfig)
    (h1 : Agent.agent env workflow subagentTpl researcherTpl current_date =
      some cfg)
    (h2 : AgentWithMemory.agent env workflow subagentTpl researcherTpl
      current_date fs = some cfgM) :
    cfg.model = Agent.buildModel env ∧
    cfg.tools = [] ∧
    Agent.INSTRUCTIONS workflow subagentTpl = some cfg.system_prompt ∧
    (∃ sa, Agent.research_sub_agent researcherTpl current_date = some sa ∧
      cfg.subagents = [sa]) ∧
    cfg.checkpointer = none ∧
    cfgM.model = AgentWithMemory.buildModel env ∧
    cfgM.tools = [] ∧
    AgentWithMemory.INSTRUCTIONS workflow subagentTpl = some cfgM.system_prompt ∧
    (∃ sa, AgentWithMemory.research_sub_agent researcherTpl current_date =
      some sa ∧ cfgM.subagents = [sa]) ∧
    cfgM.checkpointer =
      some (AgentWithMemory.get_persistent_checkpointer fs
        "./research_checkpoints.db") := by
  unfold Agent.agent at h1
  unfold AgentWithMemory.agent at h2
  split at h1
  next ins sa hI hS =>
    cases h1
    split at h2
    next insM saM hIM hSM =>
      cases h2
      exact ⟨rfl, rfl, hI, ⟨sa, hS, rfl⟩, rfl, rfl, rfl, hIM,
        ⟨saM, hSM, rfl⟩, rfl⟩
    next hno => cases h2
  next hno => cases h1

/-- C6 (witness): both factory calls evaluated on concrete literal
templates and the empty environment and filesystem. -/
theorem agent_factory_wiring_witness :
    (⟨Agent.buildModel [], [], "W\n\n" ++ pyRepeat "=" 80 ++ "\n\n" ++ "S",
      [⟨"researcher", Agent.researcherDescription, "R",
        [Tool.tavily_search, Tool.think_tool]⟩], none⟩ :
      DeepAgentConfig).tools = [] ∧
    (⟨AgentWithMemory.buildModel [], [],
      "W\n\n" ++ pyRepeat "=" 80 ++ "\n\n" ++ "S",
      [⟨"researcher", AgentWithMemory.researcherDescription, "R",
        [Tool.tavily_search, Tool.think_tool]⟩],
      some (AgentWithMemory.get_persistent_checkpointer ⟨[]⟩
        "./research_checkpoints.db")⟩ : DeepAgentConfig).checkpointer =
      some (AgentWithMemory.get_persistent_checkpointer ⟨[]⟩
        "./research_checkpoints.db") := by
  have h := agent_factory_wiring [] "W" [Seg.lit "S"] [Seg.lit "R"] "D" ⟨[]⟩
    ⟨Agent.buildModel [], [], "W\n\n" ++ pyRepeat "=" 80 ++ "\n\n" ++ "S",
      [⟨"researcher", Agent.researcherDescription, "R",
        [Tool.tavily_search, Tool.think_tool]⟩], none⟩
    ⟨AgentWithMemory.buildModel [], [],
      "W\n\n" ++ pyRepeat "=" 80 ++ "\n\n" ++ "S",
      [⟨"researcher", AgentWithMemory.researcherDescription, "R",
        [Tool.tavily_search, Tool.think_tool]⟩],
      some (AgentWithMemory.get_persistent_checkpointer ⟨[]⟩
        "./research_checkpoints.db")⟩
    (by decide) (by decide)
  exact ⟨h.2.1, h.2.2.2.2.2.2.2.2.2⟩

/-- C4: when the connectivity check (the attempt to list threads) raises,
`main` prints the error and exits with status 1, showing no menu and
running no example; when it succeeds, the menu is shown first and the
program never exits with an error status. -/
theorem client_main_connectivity (e choice : String) :
    ClientExample.clientMain (Except.error e) choice =
      [CAction.printError e, CAction.exitProgram 1] ∧
    CAction.menuShown ∉ ClientExample.clientMain (Except.error e) choice ∧
    (∀ n, CAction.runExample n ∉ ClientExample.clientMain (Except.error e) choice) ∧
    (ClientExample.clientMain (Except.ok ()) choice).head? =
      some CAction.menuShown ∧
    (∀ c, CAction.exitProgram c ∉ ClientExample.clientMain (Except.ok ()) choice) := by
  refine ⟨rfl, by simp [ClientExample.clientMain], ?_, rfl, ?_⟩
  · intro n
    simp [ClientExample.clientMain]
  · intro c
    simp only [ClientExample.clientMain, List.mem_cons]
    push_neg
    refine ⟨by simp, ?_⟩
    simp only [ClientExample.dispatchChoice]
    split_ifs <;> simp

/-- C5: in both interactive loops, a framework call that raises for a
user query results in the error message being printed, after which the
loop processes the remaining inputs unchanged — in demo_memory the
`first_query` flag is also unchanged, since the assignment sits after the
call that raised — and the failed query is not retried: the continuation
is exactly the loop on the rest of the inputs. -/
theorem interactive_loop_error_handling (rawQuery e : String)
    (rest : List (String × Except String Unit))
    (hne : pyStrip rawQuery ≠ "")
    (hq : pyLower (pyStrip rawQuery) ≠ "quit")
    (hh : pyLower (pyStrip rawQuery) ≠ "history")
    (hs : pyLower (pyStrip rawQuery) ≠ "state") :
    DemoMemory.memLoop true ((rawQuery, Except.error e) :: rest) =
      DAction.newConv (pyStrip rawQuery) :: DAction.errPrint e ::
        DemoMemory.memLoop true rest ∧
    DemoMemory.memLoop false ((rawQuery, Except.error e) :: rest) =
      DAction.resumeConv (pyStrip rawQuery) :: DAction.errPrint e ::
        DemoMemory.memLoop false rest ∧
    ClientExample.clientLoop ((rawQuery, Except.error e) :: rest) =
      DAction.streamQuery (pyStrip rawQuery) :: DAction.errPrint e ::
        ClientExample.clientLoop rest := by
  refine ⟨?_, ?_, ?_⟩
  · simp [DemoMemory.memLoop, hne, hq, hh, hs]
  · simp [DemoMemory.memLoop, hne, hq, hh, hs]
  · simp [ClientExample.clientLoop, hne, hq, hh, hs]

/-- C5 (witness): the loops evaluated on the input "hello" whose
framework call raises "boom", followed by a "quit" input. -/
theorem interactive_loop_error_handling_witness :
    DemoMemory.memLoop true [("hello", Except.error "boom"), ("quit", Except.ok ())] =
      DAction.newConv (pyStrip "hello") :: DAction.errPrint "boom" ::
        DemoMemory.memLoop true [("quit", Except.ok ())] ∧
    DemoMemory.memLoop false [("hello", Except.error "boom"), ("quit", Except.ok ())] =
      DAction.resumeConv (pyStrip "hello") :: DAction.errPrint "boom" ::
        DemoMemory.memLoop false [("quit", Except.ok ())] ∧
    ClientExample.clientLoop [("hello", Except.error "boom"), ("quit", Except.ok ())] =
      DAction.streamQuery (pyStrip "hello") :: DAction.errPrint "boom" ::
        ClientExample.clientLoop [("quit", Except.ok ())] :=
  interactive_loop_error_handling "hello" "boom" [("quit", Except.ok ())]
    (by decide) (by decide) (by decide) (by decide)

/-- C10: with the same environment, templates, date and filesystem, the
two agent scripts assemble identical INSTRUCTIONS strings, identical
research sub-agent records, select the same backend and construct the
model with the same parameters; the memory script's factory call is the
plain script's call with the persistent checkpointer added as the only
difference. -/
theorem agent_scripts_equivalent (env : Env) (workflow : String)
    (subagentTpl researcherTpl : List Seg) (current_date : String) (fs : FS) :
    Agent.INSTRUCTIONS workflow subagentTpl =
      AgentWithMemory.INSTRUCTIONS workflow subagentTpl ∧
    Agent.research_sub_agent researcherTpl current_date =
      AgentWithMemory.research_sub_agent researcherTpl current_date ∧
    (∀ v, Agent.selectBackend v = AgentWithMemory.selectBackend v) ∧
    Agent.buildModel env = AgentWithMemory.buildModel env ∧
    AgentWithMemory.agent env workflow subagentTpl researcherTpl current_date fs =
      (Agent.agent env workflow subagentTpl researcherTpl current_date).map
        (fun cfg => withCheckpointer cfg
          (AgentWithMemory.get_persistent_checkpointer fs
            "./research_checkpoints.db")) := by
  have hI : AgentWithMemory.INSTRUCTIONS = Agent.INSTRUCTIONS := rfl
  have hR : AgentWithMemory.research_sub_agent = Agent.research_sub_agent := rfl
  have hB : AgentWithMemory.buildModel = Agent.buildModel := rfl
  refine ⟨rfl, rfl, fun v => rfl, rfl, ?_⟩
  unfold Agent.agent AgentWithMemory.agent
  rw [hI, hR, hB]
  cases hins : Agent.INSTRUCTIONS workflow subagentTpl with
  | none => simp
  | some ins =>
    cases hsa : Agent.research_sub_agent researcherTpl current_date with
    | none => simp
    | some sa => simp [withCheckpointer]
